import Mathlib

/-!
# Verification of the EmergencyCall SOS trigger and dispatch pipeline

Shallow embedding of the core services of the EmergencyCall repository:

* `ContactService` (src/EmergencyCall/src/services/ContactService.js)
* `TestableLocationService` (src/EmergencyCall/src/services/TestableLocationService.js)
* `EmergencyService` (the notification dispatcher)
* the React-Native core logic (`EmergencyState`, `SOSService`,
  `MisFirePreventionService`, `ButtonEventHandler`)
* `PowerButtonService` (src/EmergencyCall/src/services/PowerButtonService.js)

JavaScript `Map`s are modelled as insertion-ordered association lists,
wall-clock timestamps as integers supplied by the caller, and the
single-threaded event loop's `setTimeout`/`clearTimeout` as an explicit
multiset of pending timer ids together with an explicit "timer fires" step.
Dynamically-typed inputs are modelled with `Option` where the code
distinguishes missing/non-string values from strings.
-/

namespace EC

/-! ## String helpers (JS string methods used by the services) -/

/-- Helper for `includes`: prefix test on character lists. -/
def isPrefixChars : List Char → List Char → Bool
  | [], _ => true
  | _ :: _, [] => false
  | a :: as, b :: bs => a == b && isPrefixChars as bs

/-- JS `hay.includes(needle)` on character lists. -/
def containsChars (needle : List Char) : List Char → Bool
  | [] => isPrefixChars needle []
  | b :: bs => isPrefixChars needle (b :: bs) || containsChars needle bs

/-- JS `hay.includes(needle)` for strings. -/
def strIncludes (hay needle : String) : Bool :=
  containsChars needle.data hay.data

/-- Characters removed by `_normalizePhoneNumber`'s regex `/[-\s()]/g`. -/
def isNormStripped (c : Char) : Bool :=
  c == '-' || c == '(' || c == ')' || c.isWhitespace

/-- Source `ContactService._normalizePhoneNumber`: strip hyphens, whitespace and
parentheses. -/
def normalizePhoneNumber (s : String) : String :=
  ⟨s.data.filter (fun c => !isNormStripped c)⟩

/-- Test for the regex `^(0\d{9,10}|(\+81|81)\d{9,10})$` used by
`ContactService._isValidPhoneNumber` (applied after normalization). -/
def matchesJPPhoneChars : List Char → Bool
  | '0' :: rest =>
      rest.all Char.isDigit && (rest.length == 9 || rest.length == 10)
  | '+' :: '8' :: '1' :: rest =>
      rest.all Char.isDigit && (rest.length == 9 || rest.length == 10)
  | '8' :: '1' :: rest =>
      rest.all Char.isDigit && (rest.length == 9 || rest.length == 10)
  | _ => false

/-- Source `ContactService._isValidPhoneNumber`. -/
def isValidPhoneNumber (phone : String) : Bool :=
  matchesJPPhoneChars (normalizePhoneNumber phone).data

/-! ## JS `Map` model: insertion-ordered association list with unique keys -/

/-- Source `Map.has`. -/
def jsMapHas {α : Type} (m : List (String × α)) (k : String) : Bool :=
  m.any (fun p => p.1 == k)

/-- Source `Map.set`: overwrite in place if the key exists, else append. -/
def jsMapSet {α : Type} (m : List (String × α)) (k : String) (v : α) :
    List (String × α) :=
  if jsMapHas m k then
    m.map (fun p => if p.1 == k then (k, v) else p)
  else
    m ++ [(k, v)]

/-- Source `Map.get`. -/
def jsMapGet {α : Type} (m : List (String × α)) (k : String) : Option α :=
  (m.find? (fun p => p.1 == k)).map (fun p => p.2)

/-- Source `Map.delete` (drops the entry with the given key). -/
def jsMapDelete {α : Type} (m : List (String × α)) (k : String) :
    List (String × α) :=
  m.filter (fun p => !(p.1 == k))

/-! ## ContactService -/

/-- A contact as stored by `ContactService._normalizeContact`
(`name`, normalized `phone`, `addedAt` timestamp, `priority`). -/
structure StoredContact where
  name : String
  phone : String
  addedAt : Nat
  priority : String
deriving DecidableEq

/-- A contact object passed in by a caller.  `phone = none` models a
missing or non-string `phone` property (its `.replace` would throw);
`name = none` models a missing name (falsy, defaulted). -/
structure ContactInput where
  name : Option String
  phone : Option String
  priority : Option String
deriving DecidableEq

/-- An arbitrary entry of a contacts array: `none` models a value that is
not an object (accessing `.name`/`.phone` on it throws). -/
abbrev ContactEntry := Option ContactInput

/-- Errors thrown by `ContactService` (messages in
`ContactService.ErrorMessages`). -/
inductive ContactError where
  | contactRequired
  | maxContactsExceeded
  | duplicatePhone
  | invalidPhoneFormat
deriving DecidableEq

/-- Source `ContactService` state: `_contactsByPhone` (a `Map` keyed by the
normalized phone) and `_contactOrder` (insertion-order array). -/
structure ContactService where
  contactsByPhone : List (String × StoredContact)
  contactOrder : List StoredContact
deriving DecidableEq

/-- Source `ContactService.MAX_CONTACTS`. -/
def MAX_CONTACTS : Nat := 10

/-- A fresh `ContactService` (constructor). -/
def emptyContactService : ContactService := ⟨[], []⟩

/-- JS falsy-default `contact.name || '名前未設定'`. -/
def defaultName : Option String → String
  | none => "名前未設定"
  | some "" => "名前未設定"
  | some n => n

/-- JS falsy-default `contact.priority || 'normal'`. -/
def defaultPriority : Option String → String
  | none => "normal"
  | some "" => "normal"
  | some p => p

/-- Source `ContactService._normalizeContact` on an object whose `phone` is the
string `p`. -/
def normalizeContact (now : Nat) (c : ContactInput) (p : String) :
    StoredContact :=
  { name := defaultName c.name
    phone := normalizePhoneNumber p
    addedAt := now
    priority := defaultPriority c.priority }

/-- Source `ContactService._validateContactFormat`: throws `CONTACT_REQUIRED` if
the entry is not an object or its phone is missing/empty/non-string, and
`INVALID_PHONE_FORMAT` if the phone fails the format check.  On success
returns the object together with its phone string. -/
def validateContactFormat (e : ContactEntry) :
    Except ContactError (ContactInput × String) :=
  match e with
  | none => .error .contactRequired
  | some c =>
    match c.phone with
    | none => .error .contactRequired
    | some p =>
      if p == "" then .error .contactRequired
      else if isValidPhoneNumber p then .ok (c, p)
      else .error .invalidPhoneFormat

/-- Source `ContactService._addValidatedContact` on an object with string phone
`p`: store under the *normalized* phone and append to the order array. -/
def addValidatedContact (now : Nat) (svc : ContactService)
    (c : ContactInput) (p : String) : ContactService :=
  let nc := normalizeContact now c p
  { contactsByPhone := jsMapSet svc.contactsByPhone nc.phone nc
    contactOrder := svc.contactOrder ++ [nc] }

/-- Source `_addValidatedContact` on an arbitrary entry, modelling the exceptions
it can raise (`none` result): a non-object entry or a non-string phone
makes `_normalizeContact` throw. -/
def tryAddValidatedContact (now : Nat) (svc : ContactService)
    (e : ContactEntry) : Option ContactService :=
  match e with
  | none => none
  | some c =>
    match c.phone with
    | none => none
    | some p => some (addValidatedContact now svc c p)

/-- Source `ContactService.getContactCount` (size of the phone map). -/
def getContactCount (svc : ContactService) : Nat :=
  svc.contactsByPhone.length

/-- Source `ContactService.hasEmergencyContacts`. -/
def hasEmergencyContacts (svc : ContactService) : Bool :=
  decide (0 < svc.contactsByPhone.length)

/-- Source `ContactService.addEmergencyContact`: format validation, capacity
check, duplicate check on the *raw* phone, then add. -/
def addEmergencyContact (now : Nat) (svc : ContactService)
    (e : ContactEntry) : Except ContactError ContactService :=
  match validateContactFormat e with
  | .error err => .error err
  | .ok (c, p) =>
    if MAX_CONTACTS ≤ getContactCount svc then .error .maxContactsExceeded
    else if jsMapHas svc.contactsByPhone p then .error .duplicatePhone
    else .ok (addValidatedContact now svc c p)

/-- Source `ContactService._clearAllContacts`. -/
def clearAllContacts (_svc : ContactService) : ContactService :=
  emptyContactService

/-- Source `ContactService.setEmergencyContacts`: a non-array argument (`none`)
is replaced by `[]`; the registry is cleared, then every entry is passed
to `_addValidatedContact` inside try/catch — a throwing entry is dropped
with a warning. -/
def setEmergencyContacts (now : Nat) (svc : ContactService)
    (input : Option (List ContactEntry)) : ContactService :=
  let entries := input.getD []
  let cleared := clearAllContacts svc
  entries.foldl
    (fun acc e =>
      match tryAddValidatedContact now acc e with
      | some s => s
      | none => acc)
    cleared

/-- Source `ContactService.getEmergencyContacts` (defensive copies of the order
array). -/
def getEmergencyContacts (svc : ContactService) : List StoredContact :=
  svc.contactOrder

/-- Source `ContactService.removeEmergencyContact`. -/
def removeEmergencyContact (svc : ContactService) (phone : String) :
    Bool × ContactService :=
  if jsMapHas svc.contactsByPhone phone then
    (true,
      { contactsByPhone := jsMapDelete svc.contactsByPhone phone
        contactOrder := svc.contactOrder.filter (fun c => !(c.phone == phone)) })
  else
    (false, svc)

/-- Source `ContactService.validateEmergencyContacts`: throws `NO_CONTACTS` when
empty, throws listing the offending phones when any stored phone fails
format re-validation, else returns validity info.  Thrown messages are
returned as `.error`. -/
def validateEmergencyContacts (svc : ContactService) :
    Except String (Bool × Nat) :=
  if !hasEmergencyContacts svc then
    .error "緊急連絡先が登録されていません"
  else
    let invalid := svc.contactOrder.filter (fun c => !isValidPhoneNumber c.phone)
    if invalid.isEmpty then
      .ok (true, getContactCount svc)
    else
      .error ("無効な電話番号が含まれています: " ++
        String.intercalate ", " (invalid.map (fun c => c.phone)))

/-! ## TestableLocationService

Coordinates are modelled as rationals; the JS `typeof ... === 'number'`
checks are vacuous for inputs of this shape, so only the bound checks
remain. -/

/-- A location value (`latitude`, `longitude`, optional `accuracy`). -/
structure Location where
  latitude : Rat
  longitude : Rat
  accuracy : Option Rat
deriving DecidableEq

/-- Source `TestableLocationService._isValidCoordinate`. -/
def isValidCoordinate (lat lng : Rat) : Bool :=
  decide (-90 ≤ lat) && decide (lat ≤ 90) &&
  decide (-180 ≤ lng) && decide (lng ≤ 180)

/-- Source `TestableLocationService._isValidLocationData` (the `typeof` number
checks always hold for a `Location`). -/
def isValidLocationData (l : Location) : Bool :=
  isValidCoordinate l.latitude l.longitude

/-- Source `TestableLocationService` state: `_currentLocation`,
`_lastKnownLocation`, `_isLocationUnavailable`. -/
structure TestableLocationService where
  currentLocation : Option Location
  lastKnownLocation : Option Location
  isLocationUnavailable : Bool
deriving DecidableEq

/-- A fresh `TestableLocationService` (constructor). -/
def emptyLocationService : TestableLocationService := ⟨none, none, false⟩

/-- Source `TestableLocationService._validateLocation`: `null`/falsy input yields
`null`; an input failing the data check throws (`.error`); otherwise the
input is returned. -/
def validateLocation (loc : Option Location) :
    Except Unit (Option Location) :=
  match loc with
  | none => .ok none
  | some l => if isValidLocationData l then .ok (some l) else .error ()

/-- Source `TestableLocationService.setCurrentLocation`: validate; on success
store the (frozen copy of the) value — or `null` — and, when non-null,
also refresh `_lastKnownLocation`; the catch branch logs and sets
`_currentLocation = null`. -/
def setCurrentLocation (svc : TestableLocationService)
    (loc : Option Location) : TestableLocationService :=
  match validateLocation loc with
  | .ok v =>
    { svc with
      currentLocation := v
      lastKnownLocation := match v with
        | some l => some l
        | none => svc.lastKnownLocation }
  | .error _ => { svc with currentLocation := none }

/-- Source `TestableLocationService.setLastKnownLocation`: validate; on success
store the value or `null`; the catch branch sets
`_lastKnownLocation = null`. -/
def setLastKnownLocation (svc : TestableLocationService)
    (loc : Option Location) : TestableLocationService :=
  match validateLocation loc with
  | .ok v => { svc with lastKnownLocation := v }
  | .error _ => { svc with lastKnownLocation := none }

/-- Source `TestableLocationService.setLocationUnavailable`. -/
def setLocationUnavailable (svc : TestableLocationService) (u : Bool) :
    TestableLocationService :=
  { svc with isLocationUnavailable := u }

/-- Source `TestableLocationService.getCurrentLocation`: `null` while the
unavailable flag is set, else a copy of the stored value. -/
def getCurrentLocation (svc : TestableLocationService) : Option Location :=
  if svc.isLocationUnavailable then none else svc.currentLocation

/-- Source `TestableLocationService.getLastKnownLocation`. -/
def getLastKnownLocation (svc : TestableLocationService) : Option Location :=
  svc.lastKnownLocation

/-- Source `TestableLocationService.getBestAvailableLocation`: current if present
and valid, else last-known if present and valid, else `null`. -/
def getBestAvailableLocation (svc : TestableLocationService) :
    Option Location :=
  match getCurrentLocation svc with
  | some c =>
    if isValidLocationData c then some c
    else
      match getLastKnownLocation svc with
      | some lk => if isValidLocationData lk then some lk else none
      | none => none
  | none =>
    match getLastKnownLocation svc with
    | some lk => if isValidLocationData lk then some lk else none
    | none => none

/-! ## EmergencyService (notification dispatcher) -/

/-- The immutable message built by `_createEmergencyMessage`.  The
source's `messageId` is a wall-clock/random string; it is modelled by the
notification id, which is likewise unique per dispatch. -/
structure EmergencyMessage where
  content : String
  location : Option Location
  timestamp : Nat
  messageId : Nat
deriving DecidableEq

/-- A record stored in `_sentMessages` on a successful per-contact send
(the message fields plus `sentAt` and a success status). -/
structure SentRecord where
  message : EmergencyMessage
  sentAt : Nat
deriving DecidableEq

/-- The value a settled send promise carries: `ok` from a successful
`_sendMessageToContact`, `caught` from the per-contact `.catch` handler
(`{phone, result: FAILED, error}`). -/
inductive SendValue where
  | ok (phone : String) (sentAt : Nat)
  | caught (phone : String) (error : String)
deriving DecidableEq

/-- Source `Promise.allSettled` outcome status. -/
inductive SettledStatus where
  | fulfilled
  | rejected
deriving DecidableEq

/-- One element of the `Promise.allSettled` result array. -/
structure Settled where
  status : SettledStatus
  value : SendValue
deriving DecidableEq

/-- Source `EmergencyService._statistics`. -/
structure Statistics where
  totalNotifications : Nat
  successfulSends : Nat
  failedSends : Nat
  lastNotificationTime : Option Nat
deriving DecidableEq

/-- One entry of `_notificationHistory`. -/
inductive HistoryEntry where
  | completed (id : Nat) (message : EmergencyMessage)
      (sendResults : List Settled) (completedAt : Nat)
  | failed (id : Nat) (error : String) (failedAt : Nat)
deriving DecidableEq

/-- Source `EmergencyService` state (with its injected contact and location
services). -/
structure EmergencyService where
  locationService : TestableLocationService
  contactService : ContactService
  notificationHistory : List HistoryEntry
  sentMessages : List (String × SentRecord)
  lastNotificationId : Nat
  statistics : Statistics
deriving DecidableEq

/-- A fresh `EmergencyService` over given injected services. -/
def mkEmergencyService (loc : TestableLocationService)
    (con : ContactService) : EmergencyService :=
  { locationService := loc
    contactService := con
    notificationHistory := []
    sentMessages := []
    lastNotificationId := 0
    statistics := ⟨0, 0, 0, none⟩ }

/-- Source `EmergencyService._isInvalidPhoneNumber`:
`!phone || phone.includes('INVALID') || phone.trim().length === 0`. -/
def isInvalidPhoneNumber (phone : String) : Bool :=
  phone == "" || strIncludes phone "INVALID" ||
    phone.data.all Char.isWhitespace

/-- Source `EmergencyService._createEmergencyMessage` (content is the
`EMERGENCY_ALERT` template; the location snapshot is copied). -/
def createEmergencyMessage (location : Option Location) (timestamp : Nat)
    (messageId : Nat) : EmergencyMessage :=
  { content := "🚨緊急事態が発生しました。助けが必要です。"
    location := location
    timestamp := timestamp
    messageId := messageId }

/-- Source `EmergencyService._validatePrerequisites`: re-raise whatever
`validateEmergencyContacts` throws; a falsy/invalid result throws the
no-contacts message. -/
def validatePrerequisites (svc : ContactService) : Except String Unit :=
  match validateEmergencyContacts svc with
  | .error e => .error e
  | .ok (isValid, _) =>
    if isValid then .ok () else .error "緊急連絡先が登録されていません"

/-- Source `EmergencyService._sendMessageToContact` (with
`_simulateMessageSending` inlined): an invalid phone throws, a phone
containing `INVALID` makes the simulated transport throw; a thrown error
increments `failedSends` and propagates; success records the sent message
under the phone and increments `successfulSends`. -/
def sendMessageToContact (now : Nat) (es : EmergencyService)
    (phone : String) (msg : EmergencyMessage) :
    EmergencyService × Except String Nat :=
  if isInvalidPhoneNumber phone then
    ({ es with statistics :=
        { es.statistics with failedSends := es.statistics.failedSends + 1 } },
      .error ("Invalid phone number: " ++ phone))
  else if strIncludes phone "INVALID" then
    ({ es with statistics :=
        { es.statistics with failedSends := es.statistics.failedSends + 1 } },
      .error "Invalid phone number format")
  else
    ({ es with
        sentMessages := jsMapSet es.sentMessages phone ⟨msg, now⟩
        statistics :=
          { es.statistics with
            successfulSends := es.statistics.successfulSends + 1 } },
      .ok now)

/-- Source `EmergencyService._sendToAllContacts`: every per-contact promise is
wrapped in `.catch(error => ({phone, result: FAILED, error}))`, so by the
time `Promise.allSettled` sees it, it is *fulfilled* — with either the
success object or the caught-failure object as its value.  The sends are
issued concurrently but each mutates disjoint map keys and bumps counters,
so the sequential fold is a faithful linearization of the single-threaded
event loop. -/
def sendToAllContacts (now : Nat) (es : EmergencyService)
    (contacts : List StoredContact) (msg : EmergencyMessage) :
    EmergencyService × List Settled :=
  contacts.foldl
    (fun acc c =>
      let (es', r) := sendMessageToContact now acc.1 c.phone msg
      let settled : Settled :=
        match r with
        | .ok t => ⟨.fulfilled, .ok c.phone t⟩
        | .error e => ⟨.fulfilled, .caught c.phone e⟩
      (es', acc.2 ++ [settled]))
    (es, [])

/-- The response object built by `EmergencyService._buildSuccessResponse`. -/
structure DispatchResponse where
  success : Bool
  notificationId : Nat
  sentTo : Nat
  successful : Nat
  failed : Nat
  timestamp : Nat
deriving DecidableEq

/-- Source `EmergencyService._buildSuccessResponse`: count `fulfilled` settled
results as `successful` and `rejected` ones as `failed`. -/
def buildSuccessResponse (notificationId : Nat) (contactCount : Nat)
    (timestamp : Nat) (sendResults : List Settled) : DispatchResponse :=
  { success := true
    notificationId := notificationId
    sentTo := contactCount
    successful :=
      (sendResults.filter (fun r => r.status == .fulfilled)).length
    failed :=
      (sendResults.filter (fun r => r.status == .rejected)).length
    timestamp := timestamp }

/-- Source `EmergencyService._recordNotificationResult`. -/
def recordNotificationResult (es : EmergencyService) (id : Nat)
    (msg : EmergencyMessage) (sendResults : List Settled) (now : Nat) :
    EmergencyService :=
  { es with
    notificationHistory :=
      es.notificationHistory ++ [.completed id msg sendResults now]
    statistics :=
      { es.statistics with
        totalNotifications := es.statistics.totalNotifications + 1
        lastNotificationTime := some now } }

/-- Source `EmergencyService.sendEmergencyNotification`: generate an id, validate
prerequisites (a throw is recorded in the history and re-thrown), build
the notification data from the best available location and the contact
list, fan out to every contact, record the result and return the success
response. -/
def sendEmergencyNotification (now : Nat) (es : EmergencyService) :
    EmergencyService × Except String DispatchResponse :=
  let nid := es.lastNotificationId + 1
  let es := { es with lastNotificationId := nid }
  match validatePrerequisites es.contactService with
  | .error e =>
    ({ es with
        notificationHistory :=
          es.notificationHistory ++ [.failed nid e now] },
      .error e)
  | .ok _ =>
    let location := getBestAvailableLocation es.locationService
    let msg := createEmergencyMessage location now nid
    let contacts := getEmergencyContacts es.contactService
    let (es, results) := sendToAllContacts now es contacts msg
    let es := recordNotificationResult es nid msg results now
    (es, .ok (buildSuccessResponse nid contacts.length now results))

/-- Source `EmergencyService.isMessageSentTo`. -/
def isMessageSentTo (es : EmergencyService) (phone : String) : Bool :=
  jsMapHas es.sentMessages phone

/-! ## React-Native core logic (EmergencyConnect)

`EmergencyState`, `SOSService`, `MisFirePreventionService` and
`ButtonEventHandler`.  `setTimeout`/`clearTimeout` of the single-threaded
event loop are modelled explicitly: scheduling allocates a fresh id from
`nextTimerId` and appends it to `pendingTimers`; `clearTimeout` removes
the id; a separate `fireCountdown` step runs the countdown callback of a
pending id.  `triggerCalls` counts invocations of `SOSService.trigger`
(the dispatch call), and press timestamps are integers (JS millisecond
clock values, so that `timestamp - 10000` may go negative). -/

/-- Source `CONSTANTS.TIMING.COUNTDOWN_DURATION`. -/
def COUNTDOWN_DURATION : Nat := 3000

/-- Source `CONSTANTS.TIMING.MAX_BUTTON_INTERVAL`. -/
def MAX_BUTTON_INTERVAL : Int := 5000

/-- Source `CONSTANTS.BUTTONS`. -/
inductive Button where
  | volumeUp
  | volumeDown
  | power
deriving DecidableEq

/-- Source `CONSTANTS.ACTIONS`. -/
inductive ButtonAction where
  | triplePress
  | longPress
  | quintupletPress
deriving DecidableEq

/-- A validated `ButtonConfig`. -/
structure ButtonConfig where
  button : Button
  action : ButtonAction
deriving DecidableEq

/-- One recorded button press. -/
structure ButtonPress where
  button : Button
  timestamp : Int
deriving DecidableEq

/-- The `sosState` value object. -/
structure SOSState where
  initiated : Bool
  sent : Bool
  timestamp : Option Nat
  emergencyOverride : Bool
  crashResistant : Bool
deriving DecidableEq

/-- The `uiState` value object. -/
structure UIState where
  showCancelButton : Bool
  cancelButtonVisible : Bool
deriving DecidableEq

/-- A contact of the core's `EmergencyContactManager` (`id`, `name`,
`phone`). -/
structure ECContact where
  id : String
  name : String
  phone : String
deriving DecidableEq

/-- The result object of `MisFirePreventionService.validateButtonSequence`
and `validatePressIntervals` (`isFalsePositive` is absent — i.e. falsy —
on the inconclusive results). -/
structure ValidationResult where
  isValidSOS : Bool
  isFalsePositive : Bool
  reason : Option String
deriving DecidableEq

/-- The global `EmergencyState`, extended with the explicit event-loop
timer model (`pendingTimers`, `nextTimerId`) and the dispatch-call counter
`triggerCalls`. -/
structure EmergencyState where
  buttonConfig : Option ButtonConfig
  emergencyContacts : List ECContact
  networkStatus : Bool
  buttonPresses : List ButtonPress
  sosState : SOSState
  uiState : UIState
  countdownTimer : Option Nat
  pendingTimers : List Nat
  nextTimerId : Nat
  triggerCalls : Nat
deriving DecidableEq

/-- Source `EmergencyState.reset()` / initial state. -/
def initialEmergencyState : EmergencyState :=
  { buttonConfig := none
    emergencyContacts := []
    networkStatus := true
    buttonPresses := []
    sosState := ⟨false, false, none, false, false⟩
    uiState := ⟨false, false⟩
    countdownTimer := none
    pendingTimers := []
    nextTimerId := 0
    triggerCalls := 0 }

/-- The result of `SOSService.trigger`. -/
inductive TriggerResult where
  | failure (error : String)
  | success
deriving DecidableEq

/-- Source `SOSService.trigger`: fail without contacts, fail without network,
else set `sent` and the timestamp.  Every invocation bumps
`triggerCalls` (it *is* the dispatch call). -/
def SOSService.trigger (now : Nat) (s : EmergencyState) :
    EmergencyState × TriggerResult :=
  let s := { s with triggerCalls := s.triggerCalls + 1 }
  if s.emergencyContacts.isEmpty then
    (s, .failure "緊急連絡先が登録されていません")
  else if !s.networkStatus then
    (s, .failure "ネットワークに接続されていません")
  else
    ({ s with sosState :=
        { s.sosState with sent := true, timestamp := some now } },
      .success)

/-- Source `MisFirePreventionService.initiateSOS`: set `initiated` and the
cancel-button UI flags, schedule the countdown `setTimeout` (a fresh
pending timer) and save its id in `countdownTimer`.  Returns
`{countdownStarted, countdownDuration}` (seconds). -/
def initiateSOS (s : EmergencyState) : EmergencyState × (Bool × Nat) :=
  let s :=
    { s with
      sosState := { s.sosState with initiated := true }
      uiState := ⟨true, true⟩ }
  let id := s.nextTimerId
  ({ s with
      pendingTimers := s.pendingTimers ++ [id]
      nextTimerId := id + 1
      countdownTimer := some id },
    (true, COUNTDOWN_DURATION / 1000))

/-- The countdown callback firing: only a pending timer can fire; firing
consumes it (one-shot) and runs
`if (state.sosState.initiated) SOSService.trigger()`. -/
def fireCountdown (now : Nat) (id : Nat) (s : EmergencyState) :
    EmergencyState :=
  if s.pendingTimers.contains id then
    let s := { s with pendingTimers := s.pendingTimers.erase id }
    if s.sosState.initiated then (SOSService.trigger now s).1 else s
  else s

/-- Source `MisFirePreventionService.cancel`: `clearTimeout` the saved countdown
timer (if any), then unconditionally reset `initiated` and the
cancel-button UI flags. -/
def cancelSOS (s : EmergencyState) : EmergencyState :=
  let s :=
    match s.countdownTimer with
    | some id =>
      { s with
        pendingTimers := s.pendingTimers.erase id
        countdownTimer := none }
    | none => s
  { s with
    sosState := { s.sosState with initiated := false }
    uiState := ⟨false, false⟩ }

/-- Source `Utils.calculateIntervals`: consecutive differences of the timestamp
list. -/
def calculateIntervals : List Int → List Int
  | [] => []
  | [_] => []
  | a :: b :: rest => (b - a) :: calculateIntervals (b :: rest)

/-- Source `Utils.hasIrregularInterval`: some interval reaches
`MAX_BUTTON_INTERVAL`. -/
def hasIrregularInterval (intervals : List Int) : Bool :=
  intervals.any (fun i => decide (MAX_BUTTON_INTERVAL ≤ i))

/-- Source `MisFirePreventionService.validatePressIntervals`. -/
def validatePressIntervals (s : EmergencyState) : ValidationResult :=
  if s.buttonPresses.length < 2 then
    ⟨true, false, none⟩
  else
    let timestamps := s.buttonPresses.map (fun p => p.timestamp)
    if hasIrregularInterval (calculateIntervals timestamps) then
      ⟨false, true, some "不規則な押下パターン"⟩
    else
      ⟨true, false, none⟩

/-- Source `MisFirePreventionService.validateButtonSequence`. -/
def validateButtonSequence (s : EmergencyState) : ValidationResult :=
  match s.buttonConfig with
  | none => ⟨false, false, some "ボタン設定なし"⟩
  | some cfg =>
    match s.buttonPresses.getLast? with
    | none => ⟨false, false, some "ボタン押下なし"⟩
    | some lastPress =>
      if lastPress.button ≠ cfg.button then
        ⟨false, false, some "設定と異なるボタン"⟩
      else
        validatePressIntervals s

/-- The press-recording half of
`ButtonEventHandler.handleVolumeButtonPress`: append the press, then keep
only presses whose timestamp is strictly newer than `now - 10000`. -/
def recordPress (s : EmergencyState) (button : Button) (now : Int) :
    EmergencyState :=
  let presses := s.buttonPresses ++ [⟨button, now⟩]
  { s with
    buttonPresses := presses.filter (fun p => decide (now - 10000 < p.timestamp)) }

/-- Source `ButtonEventHandler.handleVolumeButtonPress`: record and prune the
press, then initiate the SOS countdown iff the sequence validates. -/
def handleVolumeButtonPress (s : EmergencyState) (button : Button)
    (now : Int) : EmergencyState :=
  let s := recordPress s button now
  if (validateButtonSequence s).isValidSOS then (initiateSOS s).1 else s

/-! ## PowerButtonService -/

/-- Source `PowerButtonService.PRESS_TIMEOUT_MS`. -/
def PRESS_TIMEOUT_MS : Nat := 3000

/-- Source `PowerButtonService.REQUIRED_PRESS_COUNT`. -/
def REQUIRED_PRESS_COUNT : Nat := 3

/-- Source `PowerButtonService.States`. -/
inductive PBState where
  | idle
  | counting
  | triggered
deriving DecidableEq

/-- Source `PowerButtonService` state.  `pressTimeout = some d` models an armed
re-arm timeout of duration `d` ms (the service clears any existing one
before arming, so at most one is ever pending); `dispatchCount` counts
invocations of the injected `sendEmergencyNotification`. -/
structure PowerButtonService where
  pressCount : Nat
  pressTimeout : Option Nat
  pbState : PBState
  dispatchCount : Nat
deriving DecidableEq

/-- A fresh `PowerButtonService` (constructor). -/
def initialPowerButtonService : PowerButtonService := ⟨0, none, .idle, 0⟩

/-- Source `PowerButtonService.triggerPowerButton`: ignore when already
triggered; else increment the count and enter `COUNTING`, clear the
existing timeout, then either trigger the emergency (count reached) or
re-arm a fresh `PRESS_TIMEOUT_MS` timeout (count still below). -/
def triggerPowerButton (svc : PowerButtonService) : PowerButtonService :=
  if svc.pbState = .triggered then svc
  else
    let svc :=
      { svc with pressCount := svc.pressCount + 1, pbState := .counting }
    let svc := { svc with pressTimeout := none }
    if svc.pressCount == REQUIRED_PRESS_COUNT then
      { svc with
        pbState := .triggered
        pressTimeout := none
        dispatchCount := svc.dispatchCount + 1 }
    else if svc.pressCount < REQUIRED_PRESS_COUNT then
      { svc with pressTimeout := some PRESS_TIMEOUT_MS }
    else svc

/-- The press timeout firing (`_resetToIdle`): only possible while armed;
resets the count and state. -/
def firePressTimeout (svc : PowerButtonService) : PowerButtonService :=
  match svc.pressTimeout with
  | some _ => { svc with pressCount := 0, pbState := .idle, pressTimeout := none }
  | none => svc

/-! ## Predicates used by the stated properties -/

/-- Every stored location of the cache satisfies the coordinate bounds. -/
def storedLocationsValid (svc : TestableLocationService) : Prop :=
  (∀ c, svc.currentLocation = some c → isValidLocationData c = true) ∧
  (∀ c, svc.lastKnownLocation = some c → isValidLocationData c = true)

/-- An entry of a contacts array that is an object carrying a string
phone (exactly the entries `_addValidatedContact` does not throw on). -/
def entryHasStringPhone : ContactEntry → Bool
  | none => false
  | some c => c.phone.isSome

/-! ## Concrete instances used by counterexamples and bug evaluations -/

/-- The repository's own partial-failure test input: two valid contacts
around one whose phone carries the `INVALID` marker. -/
def entriesC1 : List ContactEntry :=
  [some ⟨some "配偶者", some "090-1234-5678", none⟩,
   some ⟨some "父親", some "090-INVALID-NUMBER", none⟩,
   some ⟨some "母親", some "090-3456-7890", none⟩]

/-- The contact registry holding `entriesC1`. -/
def conC1 : ContactService :=
  setEmergencyContacts 0 emptyContactService (some entriesC1)

/-- An `EmergencyService` over that registry. -/
def esC1 : EmergencyService := mkEmergencyService emptyLocationService conC1

/-- The message the dispatcher would build for notification 1 at time 5. -/
def msgC1 : EmergencyMessage := createEmergencyMessage none 5 1

/-- The fan-out of `msgC1` to the three contacts (the state after the
sends, and the settled results array). -/
def fanC1 : EmergencyService × List Settled :=
  sendToAllContacts 5 esC1 (getEmergencyContacts conC1) msgC1

/-- A contact entry with a hyphenated phone (raw form differs from its
normalized form). -/
def cDup : ContactEntry := some ⟨some "A", some "090-1234-5678", none⟩

/-- The registry after adding `cDup` once. -/
def svcDup1 : ContactService :=
  (addEmergencyContact 0 emptyContactService cDup).toOption.getD
    emptyContactService

/-- The registry after adding `cDup` a second time. -/
def svcDup2 : ContactService :=
  (addEmergencyContact 1 svcDup1 cDup).toOption.getD emptyContactService

/-- A state with one registered contact and network up, so that the fired
countdown actually commits (`sent = true`). -/
def sentReadyState : EmergencyState :=
  { initialEmergencyState with
    emergencyContacts := [⟨"1", "A", "09012345678"⟩] }

/-- The state after `initiateSOS` and the countdown firing: `sent = true`
while `initiated` and the cancel-button UI flags are still set. -/
def sentState : EmergencyState :=
  fireCountdown 9 0 (initiateSOS sentReadyState).1

/-- A location inside the coordinate bounds. -/
def locGood : Location := ⟨35, 139, none⟩

/-- A location whose latitude is out of bounds. -/
def locBad : Location := ⟨100, 0, none⟩

/-- A location cache whose current (and last-known) slot holds
`locGood`. -/
def svcC9 : TestableLocationService :=
  setCurrentLocation emptyLocationService (some locGood)

/-- An entry that is an object with a string phone failing the phone
format validation. -/
def badFormatEntry : ContactEntry := some ⟨some "X", some "abc", none⟩

/-- A registry holding one valid contact, to exhibit the clearing
behavior of `setEmergencyContacts`. -/
def svcC10prior : ContactService :=
  (addEmergencyContact 0 emptyContactService
      (some ⟨some "A", some "09012345678", none⟩)).toOption.getD
    emptyContactService

/-! ## Helper lemmas -/

/-- Every invocation of `SOSService.trigger` bumps the dispatch-call
counter, in every branch. -/
theorem trigger_triggerCalls (now : Nat) (s : EmergencyState) :
    ((SOSService.trigger now s).1).triggerCalls = s.triggerCalls + 1 := by
  unfold SOSService.trigger
  by_cases h1 : s.emergencyContacts.isEmpty <;>
    by_cases h2 : s.networkStatus <;> simp [h1, h2]

/-- Helper: `SOSService.trigger` leaves the pending-timer multiset unchanged. -/
theorem trigger_pendingTimers (now : Nat) (s : EmergencyState) :
    ((SOSService.trigger now s).1).pendingTimers = s.pendingTimers := by
  unfold SOSService.trigger
  by_cases h1 : s.emergencyContacts.isEmpty <;>
    by_cases h2 : s.networkStatus <;> simp [h1, h2]

/-- When no countdown timer is pending, a timer-fire step is a no-op. -/
theorem fireCountdown_of_pending_nil (now id : Nat) (s : EmergencyState)
    (h : s.pendingTimers = []) : fireCountdown now id s = s := by
  unfold fireCountdown
  simp [h]

end EC

/-! ## The claims -/

namespace EC

/-- C1: dispatching to `[A(valid), B(marked invalid), C(valid)]` is claimed
to return `{total:3, successful:2, failed:1}` with the overall call
succeeding; on the code, (i) `sendEmergencyNotification` *throws* at the
prerequisite check, because the stored `090INVALIDNUMBER` phone fails
format re-validation, and no message is recorded for anyone; and (ii) the
fan-out itself (`_sendToAllContacts` + `_buildSuccessResponse`) reports
`successful = 3, failed = 0`, because the per-contact `.catch` converts
every rejection into a fulfilled value before `Promise.allSettled` counts
statuses — contradicting the service's own statistics, which record
2 successful and 1 failed send for the same fan-out. -/
theorem C1_partial_failure_code_bug :
    (sendEmergencyNotification 5 esC1).2 =
      .error "無効な電話番号が含まれています: 090INVALIDNUMBER" ∧
    (sendEmergencyNotification 5 esC1).1.sentMessages = [] ∧
    (getEmergencyContacts conC1).length = 3 ∧
    buildSuccessResponse 1 (getEmergencyContacts conC1).length 5 fanC1.2 =
      { success := true, notificationId := 1, sentTo := 3,
        successful := 3, failed := 0, timestamp := 5 } ∧
    fanC1.1.statistics.successfulSends = 2 ∧
    fanC1.1.statistics.failedSends = 1 ∧
    isMessageSentTo fanC1.1 "09012345678" = true ∧
    isMessageSentTo fanC1.1 "090INVALIDNUMBER" = false ∧
    isMessageSentTo fanC1.1 "09034567890" = true :=
  ⟨rfl, rfl, rfl, rfl, rfl, rfl, rfl, rfl, rfl⟩

/-- C3: the registry is claimed never to hold two contacts with the same
normalized phone, the second add failing with the duplicate error; on the
code, `_checkDuplicatePhone` tests the *raw* phone against a map keyed by
*normalized* phones, so adding the hyphenated `090-1234-5678` twice
succeeds both times and leaves the order array with two contacts whose
normalized phone is `09012345678` — while the map holds one, so
`getContactCount` says 1 against an order array of length 2,
contradicting the service's own duplicate-elimination design. -/
theorem C3_duplicate_check_code_bug :
    addEmergencyContact 1 svcDup1 cDup = .ok svcDup2 ∧
    svcDup2.contactOrder.map (fun c => c.phone) =
      ["09012345678", "09012345678"] ∧
    svcDup2.contactOrder.length = 2 ∧
    getContactCount svcDup2 = 1 :=
  ⟨rfl, rfl, rfl, rfl⟩

/-- C2: for one countdown instance (no countdown already pending,
`sent` still false), `initiate()` followed by `cancel()` before the
countdown fires leaves `sent = false`, makes no dispatch call, and leaves
no timer that could ever fire; `initiate()` followed by the countdown
firing makes exactly one dispatch call, after which no further fire is
possible — cancellation and firing are mutually exclusive outcomes. -/
theorem C2_countdown_cancel_race (s : EmergencyState) (now : Nat)
    (hPend : s.pendingTimers = []) (hSent : s.sosState.sent = false) :
    ((cancelSOS (initiateSOS s).1).sosState.sent = false ∧
      (cancelSOS (initiateSOS s).1).triggerCalls = s.triggerCalls ∧
      ∀ t id, fireCountdown t id (cancelSOS (initiateSOS s).1) =
        cancelSOS (initiateSOS s).1) ∧
    ((fireCountdown now s.nextTimerId (initiateSOS s).1).triggerCalls =
        s.triggerCalls + 1 ∧
      ∀ t id,
        fireCountdown t id (fireCountdown now s.nextTimerId (initiateSOS s).1) =
          fireCountdown now s.nextTimerId (initiateSOS s).1) := by
  constructor
  · have hcancel :
        (cancelSOS (initiateSOS s).1).pendingTimers = [] := by
      simp [initiateSOS, cancelSOS, hPend]
    refine ⟨?_, ?_, fun t id => fireCountdown_of_pending_nil t id _ hcancel⟩
    · simp [initiateSOS, cancelSOS, hSent]
    · simp [initiateSOS, cancelSOS]
  · have hfire :
        fireCountdown now s.nextTimerId (initiateSOS s).1 =
          (SOSService.trigger now
            { (initiateSOS s).1 with pendingTimers := [] }).1 := by
      simp [fireCountdown, initiateSOS, hPend]
    have hpend2 :
        (fireCountdown now s.nextTimerId (initiateSOS s).1).pendingTimers = [] := by
      rw [hfire, trigger_pendingTimers]
    refine ⟨?_, fun t id => fireCountdown_of_pending_nil t id _ hpend2⟩
    rw [hfire, trigger_triggerCalls]
    simp [initiateSOS]

/-- C2 witness: the two scenarios at the concrete initial state. -/
theorem C2_countdown_cancel_race_witness :
    (cancelSOS (initiateSOS initialEmergencyState).1).sosState.sent = false ∧
    (fireCountdown 7 initialEmergencyState.nextTimerId
        (initiateSOS initialEmergencyState).1).triggerCalls =
      initialEmergencyState.triggerCalls + 1 :=
  ⟨(C2_countdown_cancel_race initialEmergencyState 7 rfl rfl).1.1,
    (C2_countdown_cancel_race initialEmergencyState 7 rfl rfl).2.1⟩

/-- C4 counterexample: the claim says no reachable state has two pending
countdown timers; calling `initiateSOS` twice from the initial state
yields a state whose pending-timer multiset is `[0, 1]` — two pending
countdown timers, with only the second handle saved. -/
theorem C4_two_pending_timers_cex :
    ((initiateSOS (initiateSOS initialEmergencyState).1).1).pendingTimers =
      [0, 1] ∧
    ((initiateSOS (initiateSOS initialEmergencyState).1).1).countdownTimer =
      some 1 :=
  ⟨rfl, rfl⟩

/-- C4 amended: `initiateSOS` has no `initiated` guard — from *any* state
it sets `initiated`, schedules one additional pending countdown timer and
overwrites the saved handle with the new timer's id, so calling it during
an active countdown produces two pending countdown timers. -/
theorem C4_initiate_unguarded (s : EmergencyState) :
    ((initiateSOS s).1).sosState.initiated = true ∧
    ((initiateSOS s).1).pendingTimers = s.pendingTimers ++ [s.nextTimerId] ∧
    ((initiateSOS s).1).countdownTimer = some s.nextTimerId := by
  refine ⟨rfl, rfl, rfl⟩

/-- C4 witness: the amended statement at the concrete initial state. -/
theorem C4_initiate_unguarded_witness :
    ((initiateSOS initialEmergencyState).1).pendingTimers =
      initialEmergencyState.pendingTimers ++ [initialEmergencyState.nextTimerId] :=
  (C4_initiate_unguarded initialEmergencyState).2.1

/-- Recording a press appends it after pruning: the new press always
survives the 10-second retention filter and sits last. -/
theorem recordPress_buttonPresses (s : EmergencyState) (btn : Button)
    (now : Int) :
    (recordPress s btn now).buttonPresses =
      s.buttonPresses.filter (fun p => decide (now - 10000 < p.timestamp)) ++
        [⟨btn, now⟩] := by
  unfold recordPress
  simp [List.filter_append]

/-- The most recent recorded press after a press event is that event. -/
theorem recordPress_getLast (s : EmergencyState) (btn : Button) (now : Int) :
    (recordPress s btn now).buttonPresses.getLast? = some ⟨btn, now⟩ := by
  rw [recordPress_buttonPresses]
  simp

/-- Fewer than two timestamps yield no intervals. -/
theorem calculateIntervals_short (l : List Int) (h : l.length < 2) :
    calculateIntervals l = [] := by
  match l with
  | [] => rfl
  | [_] => rfl
  | _ :: _ :: _ => simp at h; omega

/-- Helper: `handleVolumeButtonPress` unfolded: record the press, then branch on
the validation verdict. -/
theorem handleVolume_eq (s : EmergencyState) (btn : Button) (now : Int) :
    handleVolumeButtonPress s btn now =
      if (validateButtonSequence (recordPress s btn now)).isValidSOS then
        (initiateSOS (recordPress s btn now)).1
      else recordPress s btn now := rfl

/-- C5: on every new press event, validation is inconclusive (no trigger)
when no button config is set, when no presses are recorded, or when the
most recent press's button differs from the configured one; otherwise a
consecutive-press interval reaching `MAX_BUTTON_INTERVAL` (5000 ms)
classifies the sequence as a false positive with no countdown initiated,
and in all remaining cases — including fewer than two recorded presses —
the sequence is valid and the countdown initiation is invoked. -/
theorem C5_press_validation (s : EmergencyState) (btn : Button) (now : Int) :
    (s.buttonConfig = none →
      validateButtonSequence (recordPress s btn now) =
        ⟨false, false, some "ボタン設定なし"⟩ ∧
      handleVolumeButtonPress s btn now = recordPress s btn now) ∧
    (∀ cfg, s.buttonConfig = some cfg → s.buttonPresses = [] →
      validateButtonSequence s = ⟨false, false, some "ボタン押下なし"⟩) ∧
    (∀ cfg, s.buttonConfig = some cfg → btn ≠ cfg.button →
      validateButtonSequence (recordPress s btn now) =
        ⟨false, false, some "設定と異なるボタン"⟩ ∧
      handleVolumeButtonPress s btn now = recordPress s btn now) ∧
    (∀ cfg, s.buttonConfig = some cfg → btn = cfg.button →
      hasIrregularInterval (calculateIntervals
        ((recordPress s btn now).buttonPresses.map (fun p => p.timestamp))) =
          true →
      validateButtonSequence (recordPress s btn now) =
        ⟨false, true, some "不規則な押下パターン"⟩ ∧
      handleVolumeButtonPress s btn now = recordPress s btn now) ∧
    (∀ cfg, s.buttonConfig = some cfg → btn = cfg.button →
      hasIrregularInterval (calculateIntervals
        ((recordPress s btn now).buttonPresses.map (fun p => p.timestamp))) =
          false →
      validateButtonSequence (recordPress s btn now) = ⟨true, false, none⟩ ∧
      handleVolumeButtonPress s btn now =
        (initiateSOS (recordPress s btn now)).1) := by
  have hlast := recordPress_getLast s btn now
  have hcfg : (recordPress s btn now).buttonConfig = s.buttonConfig := rfl
  refine ⟨?_, ?_, ?_, ?_, ?_⟩
  · intro h
    have hv : validateButtonSequence (recordPress s btn now) =
        ⟨false, false, some "ボタン設定なし"⟩ := by
      unfold validateButtonSequence
      rw [hcfg, h]
    exact ⟨hv, by simp [handleVolume_eq, hv]⟩
  · intro cfg hc hp
    unfold validateButtonSequence
    rw [hc, hp]
    rfl
  · intro cfg hc hb
    have hv : validateButtonSequence (recordPress s btn now) =
        ⟨false, false, some "設定と異なるボタン"⟩ := by
      unfold validateButtonSequence
      rw [hcfg, hc, hlast]
      simp [hb]
    exact ⟨hv, by simp [handleVolume_eq, hv]⟩
  · intro cfg hc hb hIrr
    have hlen : ¬ ((recordPress s btn now).buttonPresses.length < 2) := by
      intro hlt
      rw [calculateIntervals_short _ (by simpa using hlt)] at hIrr
      simp [hasIrregularInterval] at hIrr
    have hv : validateButtonSequence (recordPress s btn now) =
        ⟨false, true, some "不規則な押下パターン"⟩ := by
      unfold validateButtonSequence
      rw [hcfg, hc, hlast]
      simp only [← hb]
      unfold validatePressIntervals
      simp [hlen, hIrr]
    exact ⟨hv, by simp [handleVolume_eq, hv]⟩
  · intro cfg hc hb hReg
    have hv : validateButtonSequence (recordPress s btn now) =
        ⟨true, false, none⟩ := by
      unfold validateButtonSequence
      rw [hcfg, hc, hlast]
      simp only [← hb]
      unfold validatePressIntervals
      by_cases hlt : (recordPress s btn now).buttonPresses.length < 2
      · simp [hlt]
      · simp [hlt, hReg]
    exact ⟨hv, by simp [handleVolume_eq, hv]⟩


/-- C5 witness: a volume-up press at time 0 with no config set is
inconclusive and records no countdown. -/
theorem C5_press_validation_witness :
    initialEmergencyState.buttonConfig = none ∧
    validateButtonSequence (recordPress initialEmergencyState .volumeUp 0) =
      ⟨false, false, some "ボタン設定なし"⟩ ∧
    handleVolumeButtonPress initialEmergencyState .volumeUp 0 =
      recordPress initialEmergencyState .volumeUp 0 :=
  ⟨rfl, ((C5_press_validation initialEmergencyState .volumeUp 0).1 rfl).1,
    ((C5_press_validation initialEmergencyState .volumeUp 0).1 rfl).2⟩

/-- C6: for every state of the location cache,
`getBestAvailableLocation` returns the current location when it is
present, not flagged unavailable and within the coordinate bounds; else
the last-known location when present and valid; else nothing — in
particular, when current is unset or the unavailable flag is set, a valid
last-known location is returned unchanged. -/
theorem C6_location_fallback (svc : TestableLocationService) :
    (∀ c, svc.isLocationUnavailable = false → svc.currentLocation = some c →
      isValidLocationData c = true → getBestAvailableLocation svc = some c) ∧
    ((svc.isLocationUnavailable = true ∨ svc.currentLocation = none ∨
        (∀ c, svc.currentLocation = some c → isValidLocationData c = false)) →
      ∀ lk, svc.lastKnownLocation = some lk → isValidLocationData lk = true →
        getBestAvailableLocation svc = some lk) ∧
    ((svc.isLocationUnavailable = true ∨ svc.currentLocation = none ∨
        (∀ c, svc.currentLocation = some c → isValidLocationData c = false)) →
      (svc.lastKnownLocation = none ∨
        (∀ lk, svc.lastKnownLocation = some lk →
          isValidLocationData lk = false)) →
      getBestAvailableLocation svc = none) := by
  obtain ⟨cur, lastK, unav⟩ := svc
  refine ⟨?_, ?_, ?_⟩
  · intro c hu hc hvalid
    simp only at hu hc
    subst hu
    subst hc
    simp [getBestAvailableLocation, getCurrentLocation,
      getLastKnownLocation, hvalid]
  · intro hcur lk hlk hvalid
    simp only at hcur hlk
    subst hlk
    rcases hcur with hu | hnone | hinv
    · subst hu
      simp [getBestAvailableLocation, getCurrentLocation,
        getLastKnownLocation, hvalid]
    · subst hnone
      cases unav <;>
        simp [getBestAvailableLocation, getCurrentLocation,
          getLastKnownLocation, hvalid]
    · cases unav
      · cases cur with
        | none =>
          simp [getBestAvailableLocation, getCurrentLocation,
            getLastKnownLocation, hvalid]
        | some c =>
          simp [getBestAvailableLocation, getCurrentLocation,
            getLastKnownLocation, hinv c rfl, hvalid]
      · simp [getBestAvailableLocation, getCurrentLocation,
          getLastKnownLocation, hvalid]
  · intro hcur hlk
    simp only at hcur hlk
    have hlval : ∀ lk, lastK = some lk → isValidLocationData lk = false := by
      rcases hlk with h | h
      · intro lk hL
        rw [h] at hL
        cases hL
      · exact h
    clear hlk
    rcases hcur with hu | hnone | hinv
    · subst hu
      cases lastK with
      | none =>
        simp [getBestAvailableLocation, getCurrentLocation,
          getLastKnownLocation]
      | some lk =>
        simp [getBestAvailableLocation, getCurrentLocation,
          getLastKnownLocation, hlval lk rfl]
    · subst hnone
      cases unav
      · cases lastK with
        | none =>
          simp [getBestAvailableLocation, getCurrentLocation,
            getLastKnownLocation]
        | some lk =>
          simp [getBestAvailableLocation, getCurrentLocation,
            getLastKnownLocation, hlval lk rfl]
      · cases lastK with
        | none =>
          simp [getBestAvailableLocation, getCurrentLocation,
            getLastKnownLocation]
        | some lk =>
          simp [getBestAvailableLocation, getCurrentLocation,
            getLastKnownLocation, hlval lk rfl]
    · cases unav
      · cases cur with
        | none =>
          cases lastK with
          | none =>
            simp [getBestAvailableLocation, getCurrentLocation,
              getLastKnownLocation]
          | some lk =>
            simp [getBestAvailableLocation, getCurrentLocation,
              getLastKnownLocation, hlval lk rfl]
        | some c =>
          cases lastK with
          | none =>
            simp [getBestAvailableLocation, getCurrentLocation,
              getLastKnownLocation, hinv c rfl]
          | some lk =>
            simp [getBestAvailableLocation, getCurrentLocation,
              getLastKnownLocation, hinv c rfl, hlval lk rfl]
      · cases lastK with
        | none =>
          simp [getBestAvailableLocation, getCurrentLocation,
            getLastKnownLocation]
        | some lk =>
          simp [getBestAvailableLocation, getCurrentLocation,
            getLastKnownLocation, hlval lk rfl]

/-- C6 witness: current unset and the unavailable flag raised, a valid
last-known fix is returned unchanged. -/
theorem C6_location_fallback_witness :
    getBestAvailableLocation ⟨none, some ⟨1, 2, none⟩, true⟩ =
      some ⟨1, 2, none⟩ :=
  (C6_location_fallback ⟨none, some ⟨1, 2, none⟩, true⟩).2.1
    (Or.inl rfl) ⟨1, 2, none⟩ rfl (by decide)

/-- C7: in the power-button press-count machine, a press below the
required count increments `pressCount`, enters `COUNTING` and re-arms a
fresh `PRESS_TIMEOUT_MS` (3000 ms) timeout; the press reaching the
required count (3) transitions to the terminal `TRIGGERED` state, clears
the timeout and invokes the emergency dispatch exactly once; any press in
`TRIGGERED` leaves the machine entirely unchanged; and the timeout firing
before the count is reached resets to `IDLE` with `pressCount = 0`. -/
theorem C7_power_button_machine (svc : PowerButtonService) :
    (svc.pbState ≠ .triggered → svc.pressCount + 1 < REQUIRED_PRESS_COUNT →
      triggerPowerButton svc =
        { svc with pressCount := svc.pressCount + 1, pbState := .counting,
                   pressTimeout := some PRESS_TIMEOUT_MS }) ∧
    (svc.pbState ≠ .triggered → svc.pressCount + 1 = REQUIRED_PRESS_COUNT →
      triggerPowerButton svc =
        { svc with pressCount := svc.pressCount + 1, pbState := .triggered,
                   pressTimeout := none,
                   dispatchCount := svc.dispatchCount + 1 }) ∧
    (svc.pbState = .triggered → triggerPowerButton svc = svc) ∧
    (∀ d, svc.pressTimeout = some d →
      firePressTimeout svc =
        { svc with pressCount := 0, pbState := .idle,
                   pressTimeout := none }) := by
  refine ⟨?_, ?_, ?_, ?_⟩
  · intro hstate hlt
    unfold triggerPowerButton
    rw [if_neg hstate]
    have h1 : ¬ (svc.pressCount + 1 == REQUIRED_PRESS_COUNT) = true := by
      simp
      omega
    simp only [h1, if_false, Bool.false_eq_true]
    rw [if_pos hlt]
  · intro hstate heq
    unfold triggerPowerButton
    rw [if_neg hstate]
    have h1 : (svc.pressCount + 1 == REQUIRED_PRESS_COUNT) = true := by
      simpa using heq
    rw [if_pos h1]
  · intro hstate
    unfold triggerPowerButton
    rw [if_pos hstate]
  · intro d hd
    unfold firePressTimeout
    rw [hd]

/-- C7 witness: the first press from the idle machine increments the
count and arms a fresh 3000 ms timeout; the armed timeout firing resets
to idle. -/
theorem C7_power_button_machine_witness :
    triggerPowerButton initialPowerButtonService =
      { initialPowerButtonService with
          pressCount := 1, pbState := .counting,
          pressTimeout := some PRESS_TIMEOUT_MS } ∧
    firePressTimeout
        { initialPowerButtonService with
            pressCount := 1, pbState := .counting,
            pressTimeout := some PRESS_TIMEOUT_MS } =
      { initialPowerButtonService with
          pressCount := 0, pbState := .idle, pressTimeout := none } :=
  ⟨(C7_power_button_machine initialPowerButtonService).1 (by decide) (by decide),
    by
      have h := ((C7_power_button_machine
        { initialPowerButtonService with
            pressCount := 1, pbState := .counting,
            pressTimeout := some PRESS_TIMEOUT_MS }).2.2.2)
        PRESS_TIMEOUT_MS rfl
      simpa using h⟩

/-- C8 counterexample: the claim says `cancel()` after `sent = true` is a
state-preserving no-op; in the reachable state where the countdown has
fired and committed (`sent = true` with `initiated` and the cancel-button
UI flags still set), `cancel()` flips `initiated` and both UI flags, so
the SOS state and UI state differ before and after the call. -/
theorem C8_cancel_after_sent_cex :
    sentState.sosState.sent = true ∧
    sentState.sosState.initiated = true ∧
    (cancelSOS sentState).sosState ≠ sentState.sosState ∧
    (cancelSOS sentState).uiState ≠ sentState.uiState := by
  refine ⟨rfl, rfl, ?_, ?_⟩ <;> decide

/-- C8 amended: once `sent = true`, `cancel()` never un-sends the SOS
(`sent` and its timestamp are preserved) but it is not a no-op: it
unconditionally clears the saved countdown timer and resets `initiated`
and both cancel-button UI flags to `false`; it preserves the whole SOS
and UI state only when those fields are already clear. -/
theorem C8_cancel_after_sent_amended (s : EmergencyState)
    (h : s.sosState.sent = true) :
    (cancelSOS s).sosState.sent = true ∧
    (cancelSOS s).sosState.timestamp = s.sosState.timestamp ∧
    (cancelSOS s).sosState.initiated = false ∧
    (cancelSOS s).uiState = ⟨false, false⟩ ∧
    (cancelSOS s).countdownTimer = none ∧
    (s.sosState.initiated = false → s.uiState = ⟨false, false⟩ →
      (cancelSOS s).sosState = s.sosState ∧
      (cancelSOS s).uiState = s.uiState) := by
  obtain ⟨bc, ec, ns, bp, ⟨ini, snt, ts, eo, cr⟩, ⟨u1, u2⟩, ct, pt, nt, tc⟩ := s
  simp only at h
  subst h
  cases ct <;> simp [cancelSOS] <;>
    exact fun h1 h2 h3 => ⟨h1, h2, h3⟩

/-- C8 witness: the amended statement at the concrete post-commit
state. -/
theorem C8_cancel_after_sent_amended_witness :
    (cancelSOS sentState).sosState.sent = true ∧
    (cancelSOS sentState).sosState.initiated = false :=
  ⟨(C8_cancel_after_sent_amended sentState rfl).1,
    (C8_cancel_after_sent_amended sentState rfl).2.2.1⟩

/-- C9 counterexample: the claim says a set call with out-of-bounds
coordinates leaves the previously stored locations unchanged; on the
code, the catch branch assigns `null` to the target slot, so a valid
stored current location is wiped by the failed call. -/
theorem C9_invalid_set_clears_cex :
    isValidLocationData locBad = false ∧
    svcC9.currentLocation = some locGood ∧
    (setCurrentLocation svcC9 (some locBad)).currentLocation = none := by
  refine ⟨?_, rfl, ?_⟩ <;> decide

/-- C9 amended: a set call whose location fails the coordinate bounds
does not throw and never stores the invalid value, but it resets the
*target* slot to nothing (clearing whatever it held) while leaving the
other slot unchanged; the bounds invariant on stored locations is
preserved. -/
theorem C9_invalid_set_amended (svc : TestableLocationService)
    (loc : Location) (h : isValidLocationData loc = false) :
    (setCurrentLocation svc (some loc)).currentLocation = none ∧
    (setCurrentLocation svc (some loc)).lastKnownLocation =
      svc.lastKnownLocation ∧
    (setLastKnownLocation svc (some loc)).lastKnownLocation = none ∧
    (setLastKnownLocation svc (some loc)).currentLocation =
      svc.currentLocation ∧
    (storedLocationsValid svc →
      storedLocationsValid (setCurrentLocation svc (some loc)) ∧
      storedLocationsValid (setLastKnownLocation svc (some loc))) := by
  have hset : setCurrentLocation svc (some loc) =
      { svc with currentLocation := none } := by
    unfold setCurrentLocation validateLocation
    simp [h]
  have hset2 : setLastKnownLocation svc (some loc) =
      { svc with lastKnownLocation := none } := by
    unfold setLastKnownLocation validateLocation
    simp [h]
  refine ⟨by rw [hset], by rw [hset], by rw [hset2], by rw [hset2], ?_⟩
  intro hval
  constructor
  · rw [hset]
    refine ⟨?_, ?_⟩
    · intro c hc
      exact absurd hc (by simp)
    · intro c hc
      exact hval.2 c hc
  · rw [hset2]
    refine ⟨?_, ?_⟩
    · intro c hc
      exact hval.1 c hc
    · intro c hc
      exact absurd hc (by simp)

/-- C9 witness: the amended statement at the concrete cache and
out-of-bounds location. -/
theorem C9_invalid_set_amended_witness :
    isValidLocationData locBad = false ∧
    (setCurrentLocation svcC9 (some locBad)).lastKnownLocation =
      svcC9.lastKnownLocation := by
  have h : isValidLocationData locBad = false := by decide
  exact ⟨h, (C9_invalid_set_amended svcC9 locBad h).2.1⟩

/-- C10 counterexample: the claim says an array whose every entry fails
validation leaves the registry empty; an entry whose phone is the string `abc`
fails the service's own contact validation (`INVALID_PHONE_FORMAT`), yet
`setEmergencyContacts` — which performs no format validation — stores it,
leaving a one-element registry. -/
theorem C10_invalid_entry_stored_cex :
    validateContactFormat badFormatEntry = .error .invalidPhoneFormat ∧
    svcC10prior.contactOrder.length = 1 ∧
    (setEmergencyContacts 1 svcC10prior
        (some [badFormatEntry])).contactOrder.map (fun c => c.phone) =
      ["abc"] :=
  ⟨rfl, rfl, rfl⟩

/-- The fold inside `setEmergencyContacts` grows the order array by one
for exactly the entries that carry a string phone. -/
theorem setContacts_fold_length (now : Nat) :
    ∀ (entries : List ContactEntry) (acc : ContactService),
      (entries.foldl
        (fun acc e =>
          match tryAddValidatedContact now acc e with
          | some s => s
          | none => acc)
        acc).contactOrder.length =
      acc.contactOrder.length +
        (entries.filter entryHasStringPhone).length := by
  intro entries
  induction entries with
  | nil => intro acc; simp
  | cons e rest ih =>
    intro acc
    simp only [List.foldl_cons, List.filter_cons]
    cases e with
    | none =>
      have hstep : (match tryAddValidatedContact now acc none with
          | some s => s
          | none => acc) = acc := rfl
      rw [hstep, ih acc]
      simp [entryHasStringPhone]
    | some c =>
      cases hp : c.phone with
      | none =>
        have hstep : (match tryAddValidatedContact now acc (some c) with
            | some s => s
            | none => acc) = acc := by
          simp [tryAddValidatedContact, hp]
        rw [hstep, ih acc]
        simp [entryHasStringPhone, hp]
      | some p =>
        have hstep : (match tryAddValidatedContact now acc (some c) with
            | some s => s
            | none => acc) = addValidatedContact now acc c p := by
          simp [tryAddValidatedContact, hp]
        rw [hstep, ih]
        simp [entryHasStringPhone, hp, addValidatedContact]
        omega

/-- C10 amended: `setEmergencyContacts` never throws; a non-array
argument leaves the registry empty, and with an array the previous
contact set is always cleared first (prior contacts are lost in every
case).  However an entry is silently dropped *only* when normalizing it
would throw (a non-object entry or a non-string phone); any entry with a
string phone — even one that fails the phone-format validation — is
stored, so the registry ends empty only when no entry carries a string
phone: its final size is the number of string-phone entries. -/
theorem C10_set_contacts_amended (now : Nat) (svc : ContactService)
    (entries : List ContactEntry) :
    setEmergencyContacts now svc none = emptyContactService ∧
    setEmergencyContacts now svc (some entries) =
      setEmergencyContacts now emptyContactService (some entries) ∧
    ((entries.all fun e => !entryHasStringPhone e) = true →
      setEmergencyContacts now svc (some entries) = emptyContactService) ∧
    (setEmergencyContacts now svc (some entries)).contactOrder.length =
      (entries.filter entryHasStringPhone).length := by
  refine ⟨rfl, rfl, ?_, ?_⟩
  · intro hall
    have hfilter : entries.filter entryHasStringPhone = [] := by
      rw [List.filter_eq_nil_iff]
      intro e he
      have := List.all_eq_true.mp hall e he
      simpa using this
    have hempty : ∀ (es : List ContactEntry),
        (es.filter entryHasStringPhone = []) →
        setEmergencyContacts now svc (some es) = emptyContactService := by
      intro es
      induction es with
      | nil => intro _; rfl
      | cons e rest ih =>
        intro hf
        rw [List.filter_cons] at hf
        by_cases he : entryHasStringPhone e = true
        · simp [he] at hf
        · have hrest : rest.filter entryHasStringPhone = [] := by
            simpa [he] using hf
          have hdrop : tryAddValidatedContact now (clearAllContacts svc) e =
              none := by
            match e with
            | none => rfl
            | some c =>
              match hp : c.phone with
              | none => simp [tryAddValidatedContact, hp]
              | some p => simp [entryHasStringPhone, hp] at he
          calc setEmergencyContacts now svc (some (e :: rest))
              = setEmergencyContacts now svc (some rest) := by
                unfold setEmergencyContacts
                simp only [Option.getD_some, List.foldl_cons]
                rw [hdrop]
            _ = emptyContactService := ih hrest
    exact hempty entries hfilter
  · unfold setEmergencyContacts
    simp only [Option.getD_some]
    rw [setContacts_fold_length now entries (clearAllContacts svc)]
    simp [clearAllContacts, emptyContactService]

/-- C10 witness: the amended statement at the concrete prior registry
with one format-invalid string-phone entry. -/
theorem C10_set_contacts_amended_witness :
    setEmergencyContacts 1 svcC10prior none = emptyContactService ∧
    (setEmergencyContacts 1 svcC10prior
        (some [badFormatEntry])).contactOrder.length =
      ([badFormatEntry].filter entryHasStringPhone).length :=
  ⟨(C10_set_contacts_amended 1 svcC10prior []).1,
    (C10_set_contacts_amended 1 svcC10prior [badFormatEntry]).2.2.2⟩

end EC
